import Mathlib

/-!
Shallow embedding of the newsletter-ingestion core of the intranet portal:
`app/services/newsletter_sanitizer.py`, `app/services/newsletter_ingest.py`
and `app/services/graph_client.py`.  Python strings are Lean `String`s,
dict-shaped Graph payloads are structures whose fields carry the defaults
the code applies via `dict.get`, fallible operations return `Option`, and
the run state (database rows, counters) is passed explicitly.
-/

/-! ## Python string primitives used by the services -/

/-- Lowercasing of one character as Python `str.lower` acts on ASCII text
(all configured domain names, folder names and header names are ASCII). -/
def pyLowerChar (c : Char) : Char :=
  if 'A' ≤ c ∧ c ≤ 'Z' then Char.ofNat (c.toNat + 32) else c

/-- Uppercasing of one character as Python `str.upper` acts on ASCII text. -/
def pyUpperChar (c : Char) : Char :=
  if 'a' ≤ c ∧ c ≤ 'z' then Char.ofNat (c.toNat - 32) else c

/-- Python `str.lower` on ASCII text. -/
def pyLower (s : String) : String := String.mk (s.data.map pyLowerChar)

/-- Python `str.upper` on ASCII text. -/
def pyUpper (s : String) : String := String.mk (s.data.map pyUpperChar)

/-- Whitespace class of Python: the characters matched by `\s` in `re`
and stripped by `str.strip()` for ASCII input. -/
def isPyWs (c : Char) : Bool :=
  c = ' ' || c = '\t' || c = '\n' || c = '\r' || c.toNat = 11 || c.toNat = 12

/-- Python `str.strip()` (no argument): drop leading and trailing whitespace. -/
def pyStrip (s : String) : String :=
  String.mk (((s.data.dropWhile isPyWs).reverse.dropWhile isPyWs).reverse)

/-- Python `str.strip('<>')`: drop leading and trailing angle brackets. -/
def stripAngles (s : String) : String :=
  let isAngle : Char → Bool := fun c => c = '<' || c = '>'
  String.mk (((s.data.dropWhile isAngle).reverse.dropWhile isAngle).reverse)

/-- Case-insensitive (ASCII) match of the literal `lit` at the head of `s`;
on success returns the remaining input. -/
def eatLit (s : List Char) : List Char → Option (List Char)
  | [] => some s
  | d :: ds =>
    match s with
    | [] => none
    | c :: cs => if pyLowerChar c = pyLowerChar d then eatLit cs ds else none

/-- Does `l` start with the character list `pat`? -/
def leadsWith : List Char → List Char → Bool
  | _, [] => true
  | [], _ :: _ => false
  | c :: cs, d :: ds => c = d && leadsWith cs ds

/-- Does `l` end with the character list `pat`?  Models Python `str.endswith`. -/
def trailsWith (l pat : List Char) : Bool :=
  leadsWith l.reverse pat.reverse

/-- Does `l` contain `pat` as a contiguous sublist?  Models Python `in`. -/
def containsSub (pat : List Char) : List Char → Bool
  | [] => leadsWith [] pat
  | c :: rest => leadsWith (c :: rest) pat || containsSub pat rest

/-- Python `str.split(sep)` for a one-character separator: the empty string
yields one empty piece, adjacent separators yield empty pieces. -/
def splitOnChar (sep : Char) : List Char → List (List Char)
  | [] => [[]]
  | c :: rest =>
    let r := splitOnChar sep rest
    if c = sep then [] :: r
    else
      match r with
      | [] => [[c]]
      | h :: t => (c :: h) :: t

/-! ## parse_authentication_results (newsletter_sanitizer.py lines 541-591) -/

/-- One entry of a Graph `internetMessageHeaders` list. -/
structure MessageHeader where
  name : String
  value : String
deriving DecidableEq, Repr

/-- The dictionary built by `parse_authentication_results`. -/
structure AuthResults where
  spf : String
  dkim : String
  dmarc : String
  overall : String
deriving DecidableEq, Repr

/-- Character class `[^\s;]` of the mechanism-value regexes. -/
def isMechValChar (c : Char) : Bool := !isPyWs c && c != ';'

/-- Leftmost match of the regex `<pat>([^\s;]+)` via `re.search`: at the first
position where the literal `pat` is followed by at least one `[^\s;]`
character, return the maximal such run.  The header value is already
lowercased by the caller, so matching is literal. -/
def findTokenAfter (pat : List Char) : List Char → Option String
  | [] => none
  | c :: rest =>
    if leadsWith (c :: rest) pat then
      let tok := ((c :: rest).drop pat.length).takeWhile isMechValChar
      if tok = [] then findTokenAfter pat rest else some (String.mk tok)
    else findTokenAfter pat rest

/-- Loop body of `parse_authentication_results`: an `authentication-results`
header (name compared lowercase) overwrites each mechanism for which
`re.search(r'<mech>=([^\s;]+)')` finds a match in the lowercased value. -/
def updateMechs (acc : AuthResults) (h : MessageHeader) : AuthResults :=
  if pyLower h.name = "authentication-results" then
    let v := (pyLower h.value).data
    let acc1 := match findTokenAfter "spf=".data v with
                | some t => { acc with spf := t }
                | none => acc
    let acc2 := match findTokenAfter "dkim=".data v with
                | some t => { acc1 with dkim := t }
                | none => acc1
    match findTokenAfter "dmarc=".data v with
    | some t => { acc2 with dmarc := t }
    | none => acc2
  else acc

/-- The `overall` computation of `parse_authentication_results` (lines
579-584): `pass` when every mechanism other than `not_found` is `pass` or
`none`, else `fail` when some mechanism is `fail`, else `partial`. -/
def overallVerdict (spf dkim dmarc : String) : String :=
  if ([spf, dkim, dmarc].filter (fun r => r != "not_found")).all
      (fun r => r == "pass" || r == "none") then "pass"
  else if [spf, dkim, dmarc].any (fun r => r == "fail") then "fail"
  else "partial"

/-- `parse_authentication_results`: mechanisms start at `not_found` (and
`overall` at `unknown`), every header is scanned in order, then `overall`
is derived.  The embedding has no exception path, so the `unknown` default
is always overwritten, exactly as in an exception-free run of the code. -/
def parse_authentication_results (headers : List MessageHeader) : AuthResults :=
  let m := headers.foldl updateMechs ⟨"not_found", "not_found", "not_found", "unknown"⟩
  { m with overall := overallVerdict m.spf m.dkim m.dmarc }

/-! ## validate_sender_domain (newsletter_sanitizer.py lines 521-539) -/

/-- The `from` object of a Graph message, reduced to the two lookups the code
performs: `from_data.get('emailAddress', dict()).get('address', '')` and
`...get('name', sender_email)`.  A missing address is the empty string; the
`name` key may be absent, in which case the code falls back to the address. -/
structure FromData where
  address : String
  displayName : Option String
deriving DecidableEq, Repr

/-- `validate_sender_domain`: true when the (non-empty) address ends with the
required domain, both sides lowercased; an empty address falls through to
`False`. -/
def validate_sender_domain (fromData : FromData) (requiredDomain : String) : Bool :=
  if fromData.address = "" then false
  else trailsWith (pyLower fromData.address).data (pyLower requiredDomain).data

/-! ## Message body handling in _validate_newsletter (newsletter_ingest.py lines 102-113) -/

/-- The `body` object of a Graph message detail. -/
structure MessageBody where
  contentType : String
  content : String
deriving DecidableEq, Repr

/-- Python `text_content.replace(chr(10), "<br>")`. -/
def newlineToBr : List Char → List Char
  | [] => []
  | c :: rest =>
    if c = '\n' then '<' :: 'b' :: 'r' :: '>' :: newlineToBr rest
    else c :: newlineToBr rest

/-- HTML-content extraction of `_validate_newsletter`: an `html` body is used
as-is, a `text` body is wrapped in a `div` with newlines turned into `<br>`,
anything else yields the empty string. -/
def extract_html_content (body : MessageBody) : String :=
  if body.contentType = "html" then body.content
  else if body.contentType = "text" then
    "<div>" ++ String.mk (newlineToBr body.content.data) ++ "</div>"
  else ""

/-! ## Attachments and raw newsletters -/

/-- One attachment object as consumed by `process_inline_images`: the code
reads `contentId` (truthiness-checked, missing = empty), `contentBytes`
(truthiness-checked, missing = empty), `contentType` (default `image/jpeg`
applied at the call site when the key is missing, folded into the field
here) and `name` (optional, defaulting to the stripped content id). -/
structure AttachmentData where
  contentId : String
  contentBytes : String
  contentType : String
  attName : Option String
deriving DecidableEq, Repr

/-- The per-message dictionary assembled by `GraphClient.sync_newsletters`
(graph_client.py lines 387-396) and consumed by
`NewsletterIngestService._validate_newsletter`.  The dictionary's redundant
`has_attachments` key is never read by the ingest service (it recomputes
`len(attachments) > 0`), so it is omitted. -/
structure RawNewsletter where
  message_id : String
  subject : String
  fromData : FromData
  received_at : String
  body : MessageBody
  headers : List MessageHeader
  attachments : List AttachmentData
deriving Repr

/-! ## _validate_newsletter (newsletter_ingest.py lines 54-155) -/

/-- The field values `_save_newsletter` receives as `processed_data`. -/
structure ProcessedData where
  message_id : String
  subject : String
  sender_name : String
  sender_email : String
  received_at : String
  html_raw : String
  html_sanitized : String
  auth_results : String
  has_attachments : Bool
  hero_image_path : Option String
deriving DecidableEq, Repr

/-- Result dictionary of `_validate_newsletter`.  `processedData` embeds the
`processed_data` key; on every reachable code path it stays `None`, because
the function raises before assigning it (see `validate_newsletter`). -/
structure ValidationOutcome where
  valid : Bool
  reason : String
  processedData : Option ProcessedData
deriving Repr

/-- Embedding of `_validate_newsletter`.  The sanitizer's
`sanitize_html` delegates to the third-party `bleach` library, so it enters
the model as the function parameter `sanitizeHtml`; every property proved
below holds for an arbitrary sanitizer.  The checks run in source order:
missing id, missing (stripped) subject, sender domain, authentication
`overall == 'fail'`, empty html content, empty sanitized html.  A message
surviving all of them reaches line 122,
`processed_html, hero_image_path = self.sanitizer.process_inline_images(...)`,
which unpacks the sanitizer's 3-tuple `(html, hero, has_inline)` into two
names and therefore raises `ValueError('too many values to unpack (expected
2)')`; the blanket `except` at line 151 turns that into the final reason
string.  Lines 126-149 (Oslo-time conversion and `processed_data`
assembly) are consequently dead code. -/
def validate_newsletter (sanitizeHtml : String → String) (msg : RawNewsletter) :
    ValidationOutcome :=
  if msg.message_id = "" then ⟨false, "Missing message ID", none⟩
  else if pyStrip msg.subject = "" then ⟨false, "Missing subject", none⟩
  else if validate_sender_domain msg.fromData "@gronvoldmaskin.no" = false then
    ⟨false, "Invalid sender domain - must be from @gronvoldmaskin.no", none⟩
  else if (parse_authentication_results msg.headers).overall = "fail" then
    ⟨false, "Failed email authentication (SPF/DKIM/DMARC)", none⟩
  else if extract_html_content msg.body = "" then ⟨false, "No content found", none⟩
  else if sanitizeHtml (extract_html_content msg.body) = "" then
    ⟨false, "HTML sanitization failed", none⟩
  else ⟨false, "Validation error: too many values to unpack (expected 2)", none⟩

/-- The `has_attachments` expression of the (dead) `processed_data`
assembly at newsletter_ingest.py line 143: `len(attachments) > 0`.  The
`hadInlineImages` flag returned by `process_inline_images` plays no part
in it. -/
def ingest_has_attachments (attachments : List AttachmentData) : Bool :=
  decide (attachments.length > 0)

/-! ## _save_newsletter and the newsletters table (newsletter_ingest.py lines 157-239) -/

/-- One row of the `newsletters` table, restricted to the columns the
service reads or writes. -/
structure NewsRow where
  message_id : String
  title : String
  content : String
  subject : String
  sender_name : String
  sender_email : String
  received_at : String
  html_raw : String
  html_sanitized : String
  auth_results : String
  has_attachments : Bool
  hero_image_path : Option String
deriving DecidableEq, Repr

/-- `_newsletter_exists`: `SELECT COUNT(*) FROM newsletters WHERE
message_id = ?` compared against zero. -/
def newsletter_exists (messageId : String) (db : List NewsRow) : Bool :=
  decide (0 < db.countP (fun r => r.message_id = messageId))

/-- Row content `_save_newsletter` writes for a given `processed_data`:
the legacy `title`/`content` columns with their fallbacks (lines 162-172)
next to the plain new-schema columns. -/
def saved_row (nd : ProcessedData) : NewsRow :=
  let title0 := pyStrip nd.subject
  let title := if title0 = "" then "(Untitled newsletter)" else title0
  let content0 := pyStrip nd.html_sanitized
  let content1 := if content0 = "" then pyStrip nd.html_raw else content0
  let content := if content1 = "" then "(No content)" else content1
  ⟨nd.message_id, title, content, nd.subject, nd.sender_name, nd.sender_email,
   nd.received_at, nd.html_raw, nd.html_sanitized, nd.auth_results,
   nd.has_attachments, nd.hero_image_path⟩

/-- Embedding of `_save_newsletter` on a healthy database connection:
`UPDATE` every row matching `message_id` when one exists, else `INSERT` a
fresh row.  SQLite-level failures (the `except` branch returning
`success=False` and rolling back) are outside the model; the returned flag
mirrors the `success` key and the string the `action` key. -/
def save_newsletter (nd : ProcessedData) (db : List NewsRow) :
    (Bool × String) × List NewsRow :=
  if newsletter_exists nd.message_id db then
    ((true, "updated"),
     db.map (fun r => if r.message_id = nd.message_id then saved_row nd else r))
  else
    ((true, "inserted"), db ++ [saved_row nd])

/-! ## sync_newsletters of the ingest service (newsletter_ingest.py lines 241-379) -/

/-- The `sync_result` dictionary. -/
structure SyncReport where
  success : Bool
  processed : Nat
  saved : Nat
  updated : Nat
  errors : Nat
  messages : List String
deriving Repr

/-- Per-message loop body of `NewsletterIngestService.sync_newsletters`
(lines 300-362): count the message, validate it, and either record the
validation failure or hand the processed data to `_save_newsletter`.  The
`processedData = none` arm mirrors `_save_newsletter(None, conn)` whose
internal `except` yields `success=False` with an `AttributeError` text; it
is unreachable because validation never succeeds. -/
def ingest_process_one (sanitizeHtml : String → String)
    (st : SyncReport × List NewsRow) (msg : RawNewsletter) :
    SyncReport × List NewsRow :=
  let rep0 := st.1
  let db := st.2
  let rep := { rep0 with processed := rep0.processed + 1 }
  let v := validate_newsletter sanitizeHtml msg
  if v.valid = false then
    ({ rep with
        errors := rep.errors + 1
        messages := rep.messages ++
          ["Newsletter " ++ msg.message_id ++ " validation failed: " ++ v.reason] }, db)
  else
    match v.processedData with
    | none =>
      ({ rep with
          errors := rep.errors + 1
          messages := rep.messages ++
            ["Failed to save newsletter " ++ msg.message_id ++
             ": NoneType object has no attribute get"] }, db)
    | some pd =>
      let res := save_newsletter pd db
      if res.1.1 then
        if res.1.2 = "inserted" then
          ({ rep with saved := rep.saved + 1 }, res.2)
        else if res.1.2 = "updated" then
          ({ rep with updated := rep.updated + 1 }, res.2)
        else (rep, res.2)
      else
        ({ rep with
            errors := rep.errors + 1
            messages := rep.messages ++
              ["Failed to save newsletter " ++ msg.message_id ++ ": database error"] },
         res.2)

/-- Embedding of `NewsletterIngestService.sync_newsletters` given the list
the Graph client returned: an empty list short-circuits to a successful
report carrying "No newsletters found in mailbox"; otherwise every message
runs through the per-message loop and the summary line is appended with
`success=True`. -/
def sync_newsletters_ingest (sanitizeHtml : String → String)
    (raw : List RawNewsletter) (db : List NewsRow) : SyncReport × List NewsRow :=
  let base : SyncReport := ⟨false, 0, 0, 0, 0, []⟩
  if raw.isEmpty then
    ({ base with
        success := true
        messages := ["No newsletters found in mailbox"] }, db)
  else
    let st := raw.foldl (ingest_process_one sanitizeHtml) (base, db)
    let rep := st.1
    let summary := "Newsletter sync completed: " ++ toString rep.saved ++ " new, " ++
      toString rep.updated ++ " updated, " ++ toString rep.errors ++ " errors"
    ({ rep with
        success := true
        messages := rep.messages ++ [summary] }, st.2)

/-! ## GraphClient folder resolution (graph_client.py lines 72-263) -/

/-- One mail-folder object: the code reads `displayName` (default empty) and
`id`. -/
structure MailFolder where
  displayName : String
  folderId : String
deriving DecidableEq, Repr

/-- One entry of a folder's message listing, restricted to the fields
`GraphClient.sync_newsletters` reads. -/
structure MessageSummary where
  msgId : String
  hasAttachments : Bool
deriving DecidableEq, Repr

/-- Full message detail as selected by `get_message_details`. -/
structure MessageDetail where
  subject : String
  fromData : FromData
  receivedDateTime : String
  body : MessageBody
  internetMessageHeaders : List MessageHeader
deriving Repr

/-- Environment and remote state a Graph-client run observes.  Every remote
listing is an `Option`: `none` models a request that failed or whose JSON
lacked the `value` key, which `graph_get` surfaces as `None`. -/
structure GraphWorld where
  token : Option String
  explicitFolderId : String
  newsletterFolder : String
  rootFolders : Option (List MailFolder)
  childFolders : String → Option (List MailFolder)
  folderMessages : String → Option (List MessageSummary)
  messageDetail : String → Option MessageDetail
  messageAttachments : String → Option (List AttachmentData)

/-- Case-insensitive display-name lookup, the comparison
`folder.get('displayName', '').lower() == name.lower()` used by every
resolution loop; `find?` mirrors the loop's break-on-first-hit. -/
def find_folder_ci (folders : List MailFolder) (name : String) : Option MailFolder :=
  folders.find? (fun f => pyLower f.displayName = pyLower name)

/-- Path-part preparation of `_resolve_folder_by_path` line 180:
`[part.strip() for part in folder_path.split('/') if part.strip()]`. -/
def path_segments (folderPath : String) : List String :=
  (((splitOnChar '/' folderPath.data).map
    (fun l => pyStrip (String.mk l)))).filter (fun p => p ≠ "")

/-- Traversal loop of `_resolve_folder_by_path` (lines 228-258): for each
remaining part, list the current folder's children (a failed listing
returns `None`), find the part case-insensitively, and fail with `None`
when it is absent. -/
def walk_child_path (w : GraphWorld) (currentId : String) :
    List String → Option String
  | [] => some currentId
  | part :: rest =>
    match w.childFolders currentId with
    | none => none
    | some children =>
      match find_folder_ci children part with
      | none => none
      | some c => walk_child_path w c.folderId rest

/-- Embedding of `_resolve_folder_by_path`: reject an all-empty path, list
the root folders (failure aborts), look for the first segment at root
(consuming it on a hit), otherwise fall back to the root folder named
`Inbox` with the first segment still unconsumed, then walk the remaining
segments. -/
def resolve_folder_by_path (w : GraphWorld) (folderPath : String) : Option String :=
  match path_segments folderPath with
  | [] => none
  | firstPart :: rest =>
    match w.rootFolders with
    | none => none
    | some roots =>
      match find_folder_ci roots firstPart with
      | some f => walk_child_path w f.folderId rest
      | none =>
        match find_folder_ci roots "inbox" with
        | some inbox => walk_child_path w inbox.folderId (firstPart :: rest)
        | none => none

/-- Child search of `_resolve_folder_by_name` (lines 141-166): scan every
root folder in order; a failed child listing is skipped (the loop
continues), a hit returns that child's id. -/
def name_child_search (w : GraphWorld) (displayName : String) :
    List MailFolder → Option String
  | [] => none
  | f :: rest =>
    match w.childFolders f.folderId with
    | none => name_child_search w displayName rest
    | some children =>
      match find_folder_ci children displayName with
      | some c => some c.folderId
      | none => name_child_search w displayName rest

/-- Embedding of `_resolve_folder_by_name`: match at root first, then one
level of children of every root folder. -/
def resolve_folder_by_name (w : GraphWorld) (displayName : String) : Option String :=
  match w.rootFolders with
  | none => none
  | some roots =>
    match find_folder_ci roots displayName with
    | some f => some f.folderId
    | none => name_child_search w displayName roots

/-- Embedding of `resolve_folder_id`: a non-blank `NEWSLETTER_FOLDER_ID`
environment value wins unconditionally; otherwise a spec containing `/` is
resolved as a path and anything else as a bare name. -/
def resolve_folder_id (w : GraphWorld) (displayNameOrPath : String) : Option String :=
  let explicitId := pyStrip w.explicitFolderId
  if explicitId ≠ "" then some explicitId
  else if displayNameOrPath.data.contains '/' then
    resolve_folder_by_path w displayNameOrPath
  else resolve_folder_by_name w displayNameOrPath

/-- One step of the claim-side walk of C10: look the segment up in the
current folder's child listing, case-insensitively on display name. -/
def spec_walk_step (w : GraphWorld) (acc : Option String) (seg : String) :
    Option String :=
  acc.bind fun fid =>
    (w.childFolders fid).bind fun children =>
      (find_folder_ci children seg).map (fun c => c.folderId)

/-- Claim-side walk, written from the words of C10: each remaining segment
is looked up in the current folder's child listing, and the walk yields
`NotFound` as soon as a listing fails or a segment is missing. -/
def spec_walk_segments (w : GraphWorld) (segs : List String) (startId : String) :
    Option String :=
  segs.foldl (spec_walk_step w) (some startId)

/-- Claim-side path resolution, written from the words of C10: match the
first segment case-insensitively against the root listing, fall back to the
well-known Inbox folder when it is not found at root (in which case the
first segment is still to be walked), then walk the remaining segments;
any failure yields `NotFound`. -/
def spec_resolve_path (w : GraphWorld) (folderSpec : String) : Option String :=
  match w.rootFolders with
  | none => none
  | some roots =>
    match path_segments folderSpec with
    | [] => none
    | s0 :: restSegs =>
      match find_folder_ci roots s0 with
      | some f => spec_walk_segments w restSegs f.folderId
      | none =>
        match find_folder_ci roots "inbox" with
        | some inbox => spec_walk_segments w (s0 :: restSegs) inbox.folderId
        | none => none

/-! ## GraphClient.sync_newsletters (graph_client.py lines 347-409) -/

/-- `fetch_messages`: a failed or valueless listing becomes the empty
list. -/
def fetch_messages (w : GraphWorld) (folderId : String) : List MessageSummary :=
  (w.folderMessages folderId).getD []

/-- Embedding of `GraphClient.sync_newsletters`.  The fatal conditions —
no access token, unresolved folder — are raised inside the function's own
`try` and caught by its blanket `except`, which returns the EMPTY LIST, the
same value an empty folder produces.  Per-message detail failures skip the
message; attachments are fetched only when the summary is flagged
`hasAttachments`, a failed attachment listing becoming the empty list. -/
def graph_sync_newsletters (w : GraphWorld) : List RawNewsletter :=
  match w.token with
  | none => []
  | some _ =>
    match resolve_folder_id w w.newsletterFolder with
    | none => []
    | some fid =>
      (fetch_messages w fid).foldl
        (fun acc m =>
          match w.messageDetail m.msgId with
          | none => acc
          | some d =>
            let atts := if m.hasAttachments then (w.messageAttachments m.msgId).getD []
                        else []
            acc ++ [{ message_id := m.msgId
                      subject := d.subject
                      fromData := d.fromData
                      received_at := d.receivedDateTime
                      body := d.body
                      headers := d.internetMessageHeaders
                      attachments := atts }])
        []

/-- The operator-facing composition: `NewsletterIngestService.sync_newsletters`
fetching its raw list from `GraphClient.sync_newsletters`. -/
def full_sync (sanitizeHtml : String → String) (w : GraphWorld)
    (db : List NewsRow) : SyncReport × List NewsRow :=
  sync_newsletters_ingest sanitizeHtml (graph_sync_newsletters w) db

/-! ## A model of re.sub for the patterns the sanitizer uses

Each pattern is embedded as a matcher that, applied to a suffix of the
input, either fails or returns how many characters the match consumes
(lookaheads inspect but do not consume).  `subMatches` then mirrors
`re.sub`/`re.finditer`: scan left to right, replace every non-overlapping
match, and count them.  None of the embedded patterns can match the empty
string; a zero-length match is treated as no match. -/

/-- Fuel-driven scan-and-replace.  The fuel is the input length, so it
never runs out. -/
def subMatches (tryMatch : List Char → Option Nat) (repl : List Char → List Char) :
    Nat → List Char → Nat × List Char
  | 0, s => (0, s)
  | _ + 1, [] => (0, [])
  | fuel + 1, c :: rest =>
    match tryMatch (c :: rest) with
    | some n =>
      if n = 0 then
        let (k, out) := subMatches tryMatch repl fuel rest
        (k, c :: out)
      else
        let matched := (c :: rest).take n
        let (k, out) := subMatches tryMatch repl fuel ((c :: rest).drop n)
        (k + 1, repl matched ++ out)
    | none =>
      let (k, out) := subMatches tryMatch repl fuel rest
      (k, c :: out)

/-- `re.sub(pattern, repl, s)` together with the match count, for a matcher
and a replacement function of the matched text. -/
def reSubCount (tryMatch : List Char → Option Nat) (repl : List Char → List Char)
    (s : String) : Nat × String :=
  let (k, out) := subMatches tryMatch repl s.data.length s.data
  (k, String.mk out)

/-! ## _replace_cid_references (newsletter_sanitizer.py lines 391-451) -/

/-- Quote class `["']` of the CID patterns. -/
def isQuoteChar (c : Char) : Bool := c = '"' || c.toNat = 39

/-- Matcher for `src\s*=\s*["']cid:<inner>["']` under `re.IGNORECASE`,
where `inner` stands for the escaped content id, optionally wrapped in
literal angle brackets by the caller.  The two quote characters are
independent, as they are in the regex character classes. -/
def matchSrcQuoted (inner : List Char) (s : List Char) : Option Nat :=
  match eatLit s "src".data with
  | none => none
  | some r1 =>
    match (r1.dropWhile isPyWs) with
    | '=' :: r3 =>
      match (r3.dropWhile isPyWs) with
      | q1 :: r5 =>
        if isQuoteChar q1 then
          match eatLit r5 ("cid:".data ++ inner) with
          | some (q2 :: r6) =>
            if isQuoteChar q2 then some (s.length - r6.length) else none
          | _ => none
        else none
      | [] => none
    | _ => none

/-- Matcher for `src\s*=\s*cid:<inner>(?=\s|>)` under `re.IGNORECASE`: the
lookahead requires a following whitespace or `>` and consumes nothing. -/
def matchSrcBare (inner : List Char) (s : List Char) : Option Nat :=
  match eatLit s "src".data with
  | none => none
  | some r1 =>
    match (r1.dropWhile isPyWs) with
    | '=' :: r3 =>
      match eatLit (r3.dropWhile isPyWs) ("cid:".data ++ inner) with
      | some (c :: r6) =>
        if isPyWs c || c = '>' then some (s.length - (c :: r6).length) else none
      | _ => none
    | _ => none

/-- Matcher for `cid:<id>(?=["'\s>]|$)` under `re.IGNORECASE`. -/
def matchBareCid (cid : List Char) (s : List Char) : Option Nat :=
  match eatLit s ("cid:".data ++ cid) with
  | none => none
  | some [] => some s.length
  | some (c :: r) =>
    if isQuoteChar c || isPyWs c || c = '>' then some (s.length - (c :: r).length)
    else none

/-- One `re.sub` step of `_replace_cid_references`: count the matches, and
adopt the rewritten HTML (accumulating the count) only when at least one
match occurred and the text actually changed, exactly as lines 430-442. -/
def applyCidStep (acc : Nat × String) (tryMatch : List Char → Option Nat)
    (repl : String) : Nat × String :=
  let (total, s) := acc
  let (cnt, out) := reSubCount tryMatch (fun _ => repl.data) s
  if cnt ≠ 0 ∧ out ≠ s then (total + cnt, out) else (total, s)

/-- Embedding of `_replace_cid_references`: the nine patterns of lines
411-428 applied in source order.  Under `re.IGNORECASE` the lowercased and
uppercased copies of a pattern match exactly the same text as the
original; they are nevertheless instantiated, like the source does. -/
def replace_cid_references (htmlContent : String) (contentId : String)
    (localPath : String) : Nat × String :=
  let cid := (stripAngles contentId).data
  let cidLower := cid.map pyLowerChar
  let cidUpper := cid.map pyUpperChar
  let bracketed := fun (l : List Char) => '<' :: (l ++ ['>'])
  let localUrl := "/static/newsletters/" ++ localPath
  let srcRepl := "src=\"" ++ localUrl ++ "\""
  let st1 := applyCidStep (0, htmlContent) (matchSrcQuoted cid) srcRepl
  let st2 := applyCidStep st1 (matchSrcBare cid) srcRepl
  let st3 := applyCidStep st2 (matchSrcQuoted cidLower) srcRepl
  let st4 := applyCidStep st3 (matchSrcQuoted cidUpper) srcRepl
  let st5 := applyCidStep st4 (matchSrcQuoted (bracketed cid)) srcRepl
  let st6 := applyCidStep st5 (matchSrcBare (bracketed cid)) srcRepl
  let st7 := applyCidStep st6 (matchBareCid cid) localUrl
  let st8 := applyCidStep st7 (matchBareCid cidLower) localUrl
  applyCidStep st8 (matchBareCid cidUpper) localUrl

/-! ## _save_attachment_locally (newsletter_sanitizer.py lines 453-519) -/

/-- Base64 alphabet membership. -/
def isB64Char (c : Char) : Bool :=
  ('A' ≤ c && c ≤ 'Z') || ('a' ≤ c && c ≤ 'z') || ('0' ≤ c && c ≤ '9') ||
    c = '+' || c = '/'

/-- Success predicate of `base64.b64decode` for well-formed payloads: after
discarding characters outside the alphabet, the length including padding
must be a multiple of four, with at most two `=` only at the very end. -/
def b64_decode_ok (s : String) : Bool :=
  let kept := s.data.filter (fun c => isB64Char c || c = '=')
  let pad := kept.reverse.takeWhile (fun c => c = '=')
  let bodyPart := kept.reverse.dropWhile (fun c => c = '=')
  kept.length % 4 = 0 && pad.length ≤ 2 && bodyPart.all isB64Char

/-- Embedding of `_save_attachment_locally`: a payload that decodes is
written to disk under the name `_generate_safe_filename` produces and that
name is returned; a failed decode (or any other exception) yields `None`.
The generated name depends on an md5 digest and the wall clock, so it
enters the model as the function parameter `genName` taking the original
filename, message id, content id, index and content type. -/
def save_attachment_locally
    (genName : String → String → String → Nat → String → String)
    (contentBytes filename messageId contentId : String) (index : Nat)
    (contentType : String) : Option String :=
  if b64_decode_ok contentBytes then
    some (genName filename messageId contentId index contentType)
  else none

/-! ## process_inline_images (newsletter_sanitizer.py lines 291-389) -/

/-- Embedding of `process_inline_images`.  An empty attachment list returns
immediately.  Otherwise each attachment with a truthy `contentId` and
truthy `contentBytes` is saved and its CID references rewritten; only an
attachment whose rewrite made at least one replacement increments the
processed count and may become the hero image.  The returned flag —
`has_inline_attachments` — is `processed_count > 0`.  The preliminary
`cid:` scan of lines 317-325 feeds logging only and is omitted. -/
def process_inline_images
    (genName : String → String → String → Nat → String → String)
    (htmlContent : String) (attachments : List AttachmentData)
    (messageId : String) : String × Option String × Bool :=
  if attachments.isEmpty then (htmlContent, none, false)
  else
    let st := attachments.foldl
      (fun (st : String × Option String × Nat) att =>
        let (procHtml, hero, count) := st
        if att.contentId ≠ "" then
          let contentId := stripAngles att.contentId
          if att.contentBytes = "" then (procHtml, hero, count)
          else
            match save_attachment_locally genName att.contentBytes
                (att.attName.getD contentId) messageId contentId count
                att.contentType with
            | none => (procHtml, hero, count)
            | some localPath =>
              let (cnt, newHtml) := replace_cid_references procHtml contentId localPath
              if cnt ≠ 0 then
                (newHtml, (match hero with | none => some localPath | some h => some h),
                 count + 1)
              else (procHtml, hero, count)
        else (procHtml, hero, count))
      (htmlContent, none, 0)
    (st.1, st.2.1, decide (st.2.2 > 0))

/-! ## URL parsing helpers (urllib.parse as used by the SafeLinks code) -/

/-- Scheme characters accepted by `urllib.parse.urlsplit` after the first
letter. -/
def isSchemeChar (c : Char) : Bool := c.isAlpha || c.isDigit || c = '+' || c = '-' || c = '.'

/-- The three components of `urlparse` the sanitizer reads. -/
structure UrlParts where
  scheme : String
  netloc : String
  query : String
deriving DecidableEq, Repr

/-- Model of `urllib.parse.urlparse` restricted to scheme, netloc and
query: split a valid `scheme:` head (lowercased), a `//netloc` delimited by
`/`, `?` or `#`, drop a `#fragment`, and keep what follows the first `?`
as the query. -/
def urlparse_lite (u : String) : UrlParts :=
  let s := u.data
  let beforeColon := s.takeWhile (fun c => c ≠ ':')
  let validScheme := beforeColon ≠ [] ∧ beforeColon.length < s.length ∧
    (beforeColon.headD ' ').isAlpha ∧ beforeColon.all isSchemeChar
  let scheme := if validScheme then String.mk (beforeColon.map pyLowerChar) else ""
  let r1 := if validScheme then s.drop (beforeColon.length + 1) else s
  let hasNetloc := leadsWith r1 ['/', '/']
  let netlocChars :=
    if hasNetloc then (r1.drop 2).takeWhile (fun c => c ≠ '/' ∧ c ≠ '?' ∧ c ≠ '#')
    else []
  let r2 := if hasNetloc then (r1.drop 2).drop netlocChars.length else r1
  let r3 := r2.takeWhile (fun c => c ≠ '#')
  let query :=
    if r3.contains '?' then String.mk ((r3.dropWhile (fun c => c ≠ '?')).tail)
    else ""
  ⟨scheme, String.mk netlocChars, query⟩

/-- Hexadecimal digit value. -/
def hexVal (c : Char) : Option Nat :=
  if '0' ≤ c ∧ c ≤ '9' then some (c.toNat - '0'.toNat)
  else if 'a' ≤ c ∧ c ≤ 'f' then some (c.toNat - 'a'.toNat + 10)
  else if 'A' ≤ c ∧ c ≤ 'F' then some (c.toNat - 'A'.toNat + 10)
  else none

/-- Percent-decoding pass of `urllib.parse.unquote`: every `%XX` with two
hex digits becomes the character of that byte value (the code points in
play are ASCII; multi-byte UTF-8 payloads are outside the claims), an
ill-formed `%` stands for itself. -/
def pctDecode : List Char → List Char
  | [] => []
  | '%' :: a :: b :: rest =>
    match hexVal a, hexVal b with
    | some ha, some hb => Char.ofNat (16 * ha + hb) :: pctDecode rest
    | _, _ => '%' :: pctDecode (a :: b :: rest)
  | c :: rest => c :: pctDecode rest

/-- `urllib.parse.unquote` on a string. -/
def unquote_str (s : String) : String := String.mk (pctDecode s.data)

/-- The `value.replace('+', ' ')` step `parse_qsl` applies before
percent-decoding. -/
def plusToSpace (s : String) : String :=
  String.mk (s.data.map (fun c => if c = '+' then ' ' else c))

/-- First value of `parse_qs(qs)[key]`: pairs split on `&`, a pair without
`=` or with an empty raw value is dropped, names and values are
plus-decoded then percent-decoded, and the first surviving pair whose name
equals `key` wins. -/
def qs_first (qs key : String) : Option String :=
  (splitOnChar '&' qs.data).foldl
    (fun acc p =>
      match acc with
      | some v => some v
      | none =>
        if p = [] then none
        else if p.contains '=' then
          let nameRaw := String.mk (p.takeWhile (fun c => c ≠ '='))
          let valRaw := String.mk ((p.dropWhile (fun c => c ≠ '=')).tail)
          if valRaw ≠ "" ∧ unquote_str (plusToSpace nameRaw) = key then
            some (unquote_str (plusToSpace valRaw))
          else none
        else none)
    none

/-! ## SafeLinks processing (newsletter_sanitizer.py lines 174-289) -/

/-- Embedding of `_is_safe_url`: reject the explicit denylist schemes,
require `http`/`https`, require a non-empty netloc. -/
def is_safe_url (url : String) : Bool :=
  let p := urlparse_lite url
  let s := pyLower p.scheme
  if s = "javascript" || s = "data" || s = "file" || s = "ftp" then false
  else if !(s = "http" || s = "https") then false
  else if p.netloc = "" then false
  else true

/-- Embedding of `_extract_url_from_safelink`: read the `url` query
parameter of the wrapper (already plus- and percent-decoded by
`parse_qs`), percent-decode it AGAIN via `unquote`, and keep the result
only when `_is_safe_url` accepts it. -/
def extract_url_from_safelink (safelinksUrl : String) : Option String :=
  match qs_first (urlparse_lite safelinksUrl).query "url" with
  | none => none
  | some encoded =>
    let original := unquote_str encoded
    if is_safe_url original then some original else none

/-- Per-match replacement `replace_safelink` of `process_safelinks`: adopt
the extracted URL when it is truthy and differs from the wrapper, keep the
wrapper otherwise. -/
def replace_safelink (safelinksUrl : String) : String :=
  match extract_url_from_safelink safelinksUrl with
  | some original =>
    if original ≠ "" ∧ original ≠ safelinksUrl then original else safelinksUrl
  | none => safelinksUrl

/-- Character class `[^"'\s>]` closing the SafeLinks wrapper pattern. -/
def isSafelinkTailChar (c : Char) : Bool :=
  !(isQuoteChar c || isPyWs c || c = '>')

/-- Matcher for the wrapper regex
`https?://[a-zA-Z0-9\-]+\.safelinks\.protection\.outlook\.com/[^"'\s>]*`
under `re.IGNORECASE`. -/
def matchSafelink (s : List Char) : Option Nat :=
  match eatLit s "http".data with
  | none => none
  | some r1 =>
    let r2 := match r1 with
              | c :: rest => if pyLowerChar c = 's' then rest else r1
              | [] => r1
    match eatLit r2 "://".data with
    | none => none
    | some r3 =>
      let host := r3.takeWhile (fun c => c.isAlpha || c.isDigit || c = '-')
      if host = [] then none
      else
        match eatLit (r3.drop host.length) ".safelinks.protection.outlook.com/".data with
        | none => none
        | some r4 =>
          let tailChars := r4.takeWhile isSafelinkTailChar
          some (s.length - (r4.length - tailChars.length))

/-- Embedding of `process_safelinks`: every wrapper match in the HTML is
fed through `replace_safelink`. -/
def process_safelinks (htmlContent : String) : String :=
  if htmlContent = "" then htmlContent
  else (reSubCount matchSafelink (fun m => (replace_safelink (String.mk m)).data)
    htmlContent).2

/-! ## Helper lemmas -/

/-- Every branch of `_validate_newsletter` leaves `valid` at `False`: the
checks return early, and the surviving path dies in the 3-into-2 tuple
unpack. -/
theorem validate_invalid (f : String → String) (msg : RawNewsletter) :
    (validate_newsletter f msg).valid = false := by
  unfold validate_newsletter
  repeat' split
  all_goals rfl

/-- Every branch of `_validate_newsletter` leaves `processed_data` at
`None`. -/
theorem validate_no_data (f : String → String) (msg : RawNewsletter) :
    (validate_newsletter f msg).processedData = none := by
  unfold validate_newsletter
  repeat' split
  all_goals rfl

/-- The per-message loop body can only take the validation-failure branch,
so it never touches the `saved` and `updated` counters or the database. -/
theorem ingest_process_one_no_save (f : String → String)
    (st : SyncReport × List NewsRow) (msg : RawNewsletter) :
    (ingest_process_one f st msg).1.saved = st.1.saved ∧
      (ingest_process_one f st msg).1.updated = st.1.updated ∧
      (ingest_process_one f st msg).2 = st.2 := by
  unfold ingest_process_one
  simp only [validate_invalid]
  exact ⟨rfl, rfl, rfl⟩

/-- Folding the per-message loop over any message list preserves the
`saved` and `updated` counters and the database. -/
theorem ingest_foldl_no_save (f : String → String) (raw : List RawNewsletter) :
    ∀ st : SyncReport × List NewsRow,
      (raw.foldl (ingest_process_one f) st).1.saved = st.1.saved ∧
        (raw.foldl (ingest_process_one f) st).1.updated = st.1.updated ∧
        (raw.foldl (ingest_process_one f) st).2 = st.2 := by
  induction raw with
  | nil => intro st; exact ⟨rfl, rfl, rfl⟩
  | cons m rest ih =>
    intro st
    have h1 := ingest_process_one_no_save f st m
    have h2 := ih (ingest_process_one f st m)
    simp only [List.foldl_cons]
    exact ⟨h2.1.trans h1.1, h2.2.1.trans h1.2.1, h2.2.2.trans h1.2.2⟩

/-! ## Claim C1 -/

/-- C1: a message that clears every earlier validation step (present id,
non-blank subject, accepted sender domain, non-failing authentication,
non-empty html content, non-empty sanitizer output) is still reported
invalid with a reason beginning "Validation error:", because line 122
unpacks the 3-tuple of `process_inline_images` into two variables and the
resulting `ValueError` is caught by the blanket handler; consequently
`sync_newsletters` persists nothing on any run — `saved = 0` and
`updated = 0` and the database is untouched, for every raw message list
and every sanitizer behaviour. -/
theorem C1_unpack_bug_blocks_all_persistence :
    (∀ (sanitizeHtml : String → String) (msg : RawNewsletter),
      msg.message_id ≠ "" →
      pyStrip msg.subject ≠ "" →
      validate_sender_domain msg.fromData "@gronvoldmaskin.no" = true →
      (parse_authentication_results msg.headers).overall ≠ "fail" →
      extract_html_content msg.body ≠ "" →
      sanitizeHtml (extract_html_content msg.body) ≠ "" →
      (validate_newsletter sanitizeHtml msg).valid = false ∧
        leadsWith (validate_newsletter sanitizeHtml msg).reason.data
          "Validation error:".data = true) ∧
    (∀ (sanitizeHtml : String → String) (raw : List RawNewsletter)
      (db : List NewsRow),
      (sync_newsletters_ingest sanitizeHtml raw db).1.saved = 0 ∧
        (sync_newsletters_ingest sanitizeHtml raw db).1.updated = 0 ∧
        (sync_newsletters_ingest sanitizeHtml raw db).2 = db) := by
  constructor
  · intro f msg hid hsub hdom hauth hhtml hsan
    have hv : validate_sender_domain msg.fromData "@gronvoldmaskin.no" = true := hdom
    unfold validate_newsletter
    rw [if_neg hid, if_neg hsub, if_neg (by simp [hv]), if_neg hauth,
      if_neg hhtml, if_neg hsan]
    exact ⟨rfl, by decide⟩
  · intro f raw db
    unfold sync_newsletters_ingest
    by_cases h : raw.isEmpty
    · rw [if_pos h]; exact ⟨rfl, rfl, rfl⟩
    · rw [if_neg h]
      have := ingest_foldl_no_save f raw (⟨false, 0, 0, 0, 0, []⟩, db)
      exact ⟨this.1, this.2.1, this.2.2⟩

/-- Concrete message exercising C1: all earlier validation steps pass, yet
validation reports the unpack `ValueError`. -/
def msgC1 : RawNewsletter :=
  { message_id := "AAMkAGM1"
    subject := "Nyhetsbrev uke 7"
    fromData := ⟨"post@gronvoldmaskin.no", some "Post"⟩
    received_at := "2025-02-10T08:00:00Z"
    body := ⟨"html", "<p>Hei alle sammen</p>"⟩
    headers := [⟨"Authentication-Results", "spf=pass; dkim=pass; dmarc=pass"⟩]
    attachments := [] }

/-- Witness for C1 at `msgC1` with the identity sanitizer. -/
theorem C1_unpack_bug_blocks_all_persistence_witness :
    ((validate_newsletter (fun s => s) msgC1).valid = false ∧
      leadsWith (validate_newsletter (fun s => s) msgC1).reason.data
        "Validation error:".data = true) ∧
    ((sync_newsletters_ingest (fun s => s) [msgC1] []).1.saved = 0 ∧
      (sync_newsletters_ingest (fun s => s) [msgC1] []).1.updated = 0 ∧
      (sync_newsletters_ingest (fun s => s) [msgC1] []).2 = []) :=
  ⟨C1_unpack_bug_blocks_all_persistence.1 (fun s => s) msgC1 (by decide) (by decide)
      (by decide) (by decide) (by decide) (by decide),
    C1_unpack_bug_blocks_all_persistence.2 (fun s => s) [msgC1] []⟩

/-! ## Claim C3 -/

/-- Filename generator standing in for `_generate_safe_filename` in the C3
evaluation. -/
def genC3 : String → String → String → Nat → String → String :=
  fun _ _ _ _ _ => "msg_c3_img.jpg"

/-- Concrete message for C3: one attachment that has no content id (a plain
file, not an inline image) and HTML without any `cid:` reference. -/
def attsC3 : List AttachmentData :=
  [{ contentId := "", contentBytes := "QUJD", contentType := "application/pdf",
     attName := some "brosjyre.pdf" }]

/-- C3: the code contradicts the claim.  At a message whose single
attachment carries no content id, `process_inline_images` reports
`hadInlineImages = false` (no substitution happened), while the
`has_attachments` expression the ingest service builds for persistence
(newsletter_ingest.py line 143) is `len(attachments) > 0 = true`; moreover
validation dies in the 3-into-2 unpack before that expression is even
reached, so the flag driven by actual substitutions is never what gets
persisted. -/
theorem C3_has_attachments_from_raw_list :
    (process_inline_images genC3 "<p>Ingen bilder her</p>" attsC3 "m3").2.2 = false ∧
      ingest_has_attachments attsC3 = true ∧
      (validate_newsletter (fun s => s)
        { message_id := "m3"
          subject := "Vedlegg"
          fromData := ⟨"post@gronvoldmaskin.no", none⟩
          received_at := ""
          body := ⟨"html", "<p>Ingen bilder her</p>"⟩
          headers := []
          attachments := attsC3 }).valid = false := by
  exact ⟨by decide, by decide, by decide⟩

/-! ## Claim C4 -/

/-- World in which the access token cannot be acquired. -/
def worldNoToken : GraphWorld :=
  { token := none
    explicitFolderId := ""
    newsletterFolder := "Godkjent"
    rootFolders := some []
    childFolders := fun _ => none
    folderMessages := fun _ => none
    messageDetail := fun _ => none
    messageAttachments := fun _ => none }

/-- World in which the mail API root endpoint is unreachable: the root
folder listing fails. -/
def worldRootFail : GraphWorld :=
  { token := some "tok"
    explicitFolderId := ""
    newsletterFolder := "Godkjent"
    rootFolders := none
    childFolders := fun _ => none
    folderMessages := fun _ => none
    messageDetail := fun _ => none
    messageAttachments := fun _ => none }

/-- World in which the configured folder cannot be resolved: the mailbox
has an Inbox but no folder named Godkjent anywhere. -/
def worldNoFolder : GraphWorld :=
  { token := some "tok"
    explicitFolderId := ""
    newsletterFolder := "Godkjent"
    rootFolders := some [⟨"Inbox", "1"⟩]
    childFolders := fun _ => some []
    folderMessages := fun _ => none
    messageDetail := fun _ => none
    messageAttachments := fun _ => none }

/-- C4: the code contradicts the claim.  Each fatal condition — missing
access token, unreachable root endpoint, unresolved folder — is raised
inside `GraphClient.sync_newsletters`, caught by its own blanket `except`
and turned into the empty list, which the ingest-side `sync_newsletters`
reports as `success = True` with the message "No newsletters found in
mailbox": a fatal error is indistinguishable from an empty folder, and
`success = False` is never produced. -/
theorem C4_fatal_error_reported_as_success :
    ((full_sync (fun s => s) worldNoToken []).1.success = true ∧
      (full_sync (fun s => s) worldNoToken []).1.processed = 0 ∧
      (full_sync (fun s => s) worldNoToken []).1.messages =
        ["No newsletters found in mailbox"]) ∧
    ((full_sync (fun s => s) worldRootFail []).1.success = true ∧
      (full_sync (fun s => s) worldRootFail []).1.processed = 0 ∧
      (full_sync (fun s => s) worldRootFail []).1.messages =
        ["No newsletters found in mailbox"]) ∧
    ((full_sync (fun s => s) worldNoFolder []).1.success = true ∧
      (full_sync (fun s => s) worldNoFolder []).1.processed = 0 ∧
      (full_sync (fun s => s) worldNoFolder []).1.messages =
        ["No newsletters found in mailbox"]) := by
  refine ⟨⟨?_, ?_, ?_⟩, ⟨?_, ?_, ?_⟩, ⟨?_, ?_, ?_⟩⟩ <;> decide

/-! ## Claim C5 -/

/-- The row written by `_save_newsletter` keeps the processed data's
message id. -/
theorem saved_row_id (nd : ProcessedData) : (saved_row nd).message_id = nd.message_id := rfl

/-- Key multiset of the database after one save: unchanged on update,
extended by the new key on insert. -/
theorem save_newsletter_keys (nd : ProcessedData) (db : List NewsRow) :
    (save_newsletter nd db).2.map (fun r => r.message_id) =
      if newsletter_exists nd.message_id db then db.map (fun r => r.message_id)
      else db.map (fun r => r.message_id) ++ [nd.message_id] := by
  unfold save_newsletter
  split
  · simp only [List.map_map]
    refine List.map_congr_left fun r _ => ?_
    by_cases hm : r.message_id = nd.message_id
    · simp [hm, saved_row_id]
    · simp [hm]
  · simp [saved_row_id]

/-- A save never appears to fail in the healthy-connection model, and a
missing key means the key occurs on no row. -/
theorem exists_false_not_mem (k : String) (db : List NewsRow)
    (h : newsletter_exists k db = false) :
    k ∉ db.map (fun r => r.message_id) := by
  intro hmem
  obtain ⟨r, hr, hrk⟩ := List.mem_map.mp hmem
  have hz : db.countP (fun r => decide (r.message_id = k)) = 0 := by
    have := of_decide_eq_false h
    omega
  have := List.countP_eq_zero.mp hz r hr
  simp [hrk] at this

/-- One save preserves distinctness of the stored message ids. -/
theorem save_newsletter_keys_nodup (nd : ProcessedData) (db : List NewsRow)
    (h : (db.map (fun r => r.message_id)).Nodup) :
    ((save_newsletter nd db).2.map (fun r => r.message_id)).Nodup := by
  rw [save_newsletter_keys]
  split
  · exact h
  · rename_i hex
    have hmem := exists_false_not_mem nd.message_id db (by
      cases hx : newsletter_exists nd.message_id db with
      | false => rfl
      | true => exact absurd hx hex)
    rw [List.nodup_append]
    exact ⟨h, List.nodup_singleton _, by
      intro a ha hb
      rw [List.mem_singleton] at hb
      exact hmem (hb ▸ ha)⟩

/-- C5: a save whose `message_id` is already stored takes the `UPDATE`
branch — same row count, same keys in place, action `updated` — and any
sequence of saves starting from a database with distinct message ids never
produces two rows sharing a message id. -/
theorem C5_upsert_idempotent_key :
    (∀ (nd : ProcessedData) (db : List NewsRow),
      newsletter_exists nd.message_id db = true →
      (save_newsletter nd db).1.2 = "updated" ∧
        (save_newsletter nd db).2.length = db.length ∧
        (save_newsletter nd db).2.map (fun r => r.message_id) =
          db.map (fun r => r.message_id)) ∧
    (∀ (db : List NewsRow) (nds : List ProcessedData),
      (db.map (fun r => r.message_id)).Nodup →
      (((nds.foldl (fun d nd => (save_newsletter nd d).2) db).map
          (fun r => r.message_id)).Nodup)) := by
  constructor
  · intro nd db h
    refine ⟨?_, ?_, ?_⟩
    · unfold save_newsletter; rw [if_pos h]
    · unfold save_newsletter; rw [if_pos h]; exact List.length_map _ _
    · rw [save_newsletter_keys, if_pos h]
  · intro db nds
    induction nds generalizing db with
    | nil => intro h; exact h
    | cons nd rest ih =>
      intro h
      exact ih _ (save_newsletter_keys_nodup nd db h)

/-- Concrete processed record for the C5 witness. -/
def ndC5 : ProcessedData :=
  { message_id := "m5", subject := "Uke 7", sender_name := "Post",
    sender_email := "post@gronvoldmaskin.no", received_at := "2025-02-10 09:00:00",
    html_raw := "<p>x</p>", html_sanitized := "<p>x</p>", auth_results := "ok",
    has_attachments := false, hero_image_path := none }

/-- Concrete database row for the C5 witness. -/
def rowC5 : NewsRow :=
  { message_id := "m5", title := "Uke 7", content := "<p>x</p>", subject := "Uke 7",
    sender_name := "Post", sender_email := "post@gronvoldmaskin.no",
    received_at := "2025-02-10 09:00:00", html_raw := "<p>x</p>",
    html_sanitized := "<p>x</p>", auth_results := "ok", has_attachments := false,
    hero_image_path := none }

/-- Witness for C5: saving `ndC5` into a database already holding its
message id updates in place, and replaying the save twice more keeps the
keys distinct. -/
theorem C5_upsert_idempotent_key_witness :
    ((save_newsletter ndC5 [rowC5]).1.2 = "updated" ∧
      (save_newsletter ndC5 [rowC5]).2.length = [rowC5].length ∧
      (save_newsletter ndC5 [rowC5]).2.map (fun r => r.message_id) =
        [rowC5].map (fun r => r.message_id)) ∧
    ((([ndC5, ndC5].foldl (fun d nd => (save_newsletter nd d).2) [rowC5]).map
        (fun r => r.message_id)).Nodup) :=
  ⟨C5_upsert_idempotent_key.1 ndC5 [rowC5] (by decide),
    C5_upsert_idempotent_key.2 [rowC5] [ndC5, ndC5] (by decide)⟩

/-! ## Claim C6 -/

/-- Claim-side overall verdict of C6: `fail` if any mechanism is `fail`;
else `pass` if every present mechanism (one that was found) is `pass` or
`none`; else `partial`. -/
def spec_overall_verdict (spf dkim dmarc : String) : String :=
  if spf = "fail" ∨ dkim = "fail" ∨ dmarc = "fail" then "fail"
  else if (spf = "not_found" ∨ spf = "pass" ∨ spf = "none") ∧
          (dkim = "not_found" ∨ dkim = "pass" ∨ dkim = "none") ∧
          (dmarc = "not_found" ∨ dmarc = "pass" ∨ dmarc = "none") then "pass"
  else "partial"

/-- C6: for every header list whose parsed mechanisms land in
`pass`/`fail`/`none`/`not_found`, the `overall` field computed by
`parse_authentication_results` equals the claim's formula, and it lies in
the claimed range. -/
theorem C6_overall_verdict_formula (headers : List MessageHeader)
    (h1 : (parse_authentication_results headers).spf ∈
      (["pass", "fail", "none", "not_found"] : List String))
    (h2 : (parse_authentication_results headers).dkim ∈
      (["pass", "fail", "none", "not_found"] : List String))
    (h3 : (parse_authentication_results headers).dmarc ∈
      (["pass", "fail", "none", "not_found"] : List String)) :
    (parse_authentication_results headers).overall =
      spec_overall_verdict (parse_authentication_results headers).spf
        (parse_authentication_results headers).dkim
        (parse_authentication_results headers).dmarc ∧
    (parse_authentication_results headers).overall ∈
      (["pass", "fail", "partial", "unknown"] : List String) := by
  have hov : (parse_authentication_results headers).overall =
      overallVerdict (parse_authentication_results headers).spf
        (parse_authentication_results headers).dkim
        (parse_authentication_results headers).dmarc := rfl
  rw [hov]
  generalize (parse_authentication_results headers).spf = a at h1 ⊢
  generalize (parse_authentication_results headers).dkim = b at h2 ⊢
  generalize (parse_authentication_results headers).dmarc = c at h3 ⊢
  simp only [List.mem_cons, List.not_mem_nil, or_false] at h1 h2 h3
  rcases h1 with h | h | h | h <;> subst h <;>
    rcases h2 with h | h | h | h <;> subst h <;>
      rcases h3 with h | h | h | h <;> subst h <;>
        exact ⟨by decide, by decide⟩

/-- Witness headers for C6: one Authentication-Results header carrying all
three mechanisms. -/
def headersC6 : List MessageHeader :=
  [⟨"Authentication-Results", "mx.example.com; spf=pass; dkim=fail; dmarc=none"⟩]

/-- Witness for C6 at `headersC6`. -/
theorem C6_overall_verdict_formula_witness :
    (parse_authentication_results headersC6).overall =
      spec_overall_verdict (parse_authentication_results headersC6).spf
        (parse_authentication_results headersC6).dkim
        (parse_authentication_results headersC6).dmarc ∧
    (parse_authentication_results headersC6).overall ∈
      (["pass", "fail", "partial", "unknown"] : List String) :=
  C6_overall_verdict_formula headersC6 (by decide) (by decide) (by decide)

/-! ## Claim C7 -/

/-- Concrete message for the C7 counterexample: the sender is outside the
company domain, but the subject is blank. -/
def msgC7 : RawNewsletter :=
  { message_id := "m7"
    subject := "   "
    fromData := ⟨"x@evil.com", none⟩
    received_at := ""
    body := ⟨"html", "<p>y</p>"⟩
    headers := []
    attachments := [] }

/-- C7 counterexample: a message whose sender does not end with the
configured domain suffix is rejected with "Missing subject", not with the
invalid-sender-domain reason — the claim's "regardless of the message's
content" fails, because the id and subject checks run first. -/
theorem C7_counterexample_subject_first :
    trailsWith (pyLower msgC7.fromData.address).data
        (pyLower "@gronvoldmaskin.no").data = false ∧
      (validate_newsletter (fun s => s) msgC7).valid = false ∧
      (validate_newsletter (fun s => s) msgC7).reason = "Missing subject" ∧
      (validate_newsletter (fun s => s) msgC7).reason ≠
        "Invalid sender domain - must be from @gronvoldmaskin.no" := by
  exact ⟨by decide, by decide, by decide, by decide⟩

/-- C7 amended: for every message carrying a message id and a non-blank
subject, a sender address that does not end case-insensitively with
`@gronvoldmaskin.no` forces rejection with exactly the
invalid-sender-domain reason, regardless of the remaining content and of
the sanitizer's behaviour. -/
theorem C7_invalid_domain_rejected (sanitizeHtml : String → String)
    (msg : RawNewsletter)
    (hid : msg.message_id ≠ "")
    (hsub : pyStrip msg.subject ≠ "")
    (hdom : trailsWith (pyLower msg.fromData.address).data
      (pyLower "@gronvoldmaskin.no").data = false) :
    (validate_newsletter sanitizeHtml msg).valid = false ∧
      (validate_newsletter sanitizeHtml msg).reason =
        "Invalid sender domain - must be from @gronvoldmaskin.no" := by
  have hvd : validate_sender_domain msg.fromData "@gronvoldmaskin.no" = false := by
    unfold validate_sender_domain
    split
    · rfl
    · exact hdom
  unfold validate_newsletter
  rw [if_neg hid, if_neg hsub, if_pos hvd]
  exact ⟨rfl, rfl⟩

/-- Concrete message for the C7 witness: complete but from a foreign
domain. -/
def msgC7w : RawNewsletter :=
  { message_id := "m7b"
    subject := "Tilbud"
    fromData := ⟨"salg@external.example", some "Salg"⟩
    received_at := ""
    body := ⟨"html", "<p>kjøp</p>"⟩
    headers := []
    attachments := [] }

/-- Witness for the amended C7 at `msgC7w`. -/
theorem C7_invalid_domain_rejected_witness :
    (validate_newsletter (fun s => s) msgC7w).valid = false ∧
      (validate_newsletter (fun s => s) msgC7w).reason =
        "Invalid sender domain - must be from @gronvoldmaskin.no" :=
  C7_invalid_domain_rejected (fun s => s) msgC7w (by decide) (by decide) (by decide)

/-! ## Claim C8 -/

/-- Claim-side raw query-parameter lookup for C8: the first `name=value`
pair of the query string whose raw name equals `key`, returned undecoded. -/
def raw_query_param (qs key : String) : Option String :=
  (splitOnChar '&' qs.data).foldl
    (fun acc p =>
      match acc with
      | some v => some v
      | none =>
        if p.contains '=' then
          if String.mk (p.takeWhile (fun c => c ≠ '=')) = key then
            some (String.mk ((p.dropWhile (fun c => c ≠ '=')).tail))
          else none
        else none)
    none

/-- Claim-side decoding of C8: the `url` query parameter of the wrapper,
percent-decoded exactly once. -/
def spec_decoded_url_param (wrapper : String) : Option String :=
  (raw_query_param (urlparse_lite wrapper).query "url").map unquote_str

/-- Concrete SafeLinks wrapper for the C8 counterexample: its `url`
parameter percent-decodes (once) to `https://example.com/a+b`. -/
def wrapC8 : String :=
  "https://eur05.safelinks.protection.outlook.com/?url=https%3A%2F%2Fexample.com%2Fa+b&data=05"

/-- C8 counterexample: the wrapper's `url` parameter percent-decodes to the
safe URL `https://example.com/a+b`, yet the code replaces the wrapper with
`https://example.com/a b` — `parse_qs` first turns `+` into a space (and
percent-decodes), and `_extract_url_from_safelink` percent-decodes a
second time, so the substituted URL is not "exactly that decoded URL". -/
theorem C8_counterexample_form_decoding :
    spec_decoded_url_param wrapC8 = some "https://example.com/a+b" ∧
      is_safe_url "https://example.com/a+b" = true ∧
      replace_safelink wrapC8 = "https://example.com/a b" ∧
      process_safelinks ("<a href=\"" ++ wrapC8 ++ "\">les mer</a>") =
        "<a href=\"https://example.com/a b\">les mer</a>" ∧
      ("https://example.com/a b" : String) ≠ "https://example.com/a+b" := by
  exact ⟨by decide, by decide, by decide, by decide, by decide⟩

/-- A URL accepted by `_is_safe_url` is non-empty. -/
theorem is_safe_url_ne_empty (u : String) (h : is_safe_url u = true) : u ≠ "" := by
  intro he
  subst he
  exact absurd h (by decide)

/-- A URL accepted by `_is_safe_url` has scheme `http` or `https` after
lowercasing. -/
theorem is_safe_url_scheme (u : String) (h : is_safe_url u = true) :
    pyLower (urlparse_lite u).scheme = "http" ∨
      pyLower (urlparse_lite u).scheme = "https" := by
  by_cases h1 : pyLower (urlparse_lite u).scheme = "http"
  · exact Or.inl h1
  by_cases h2 : pyLower (urlparse_lite u).scheme = "https"
  · exact Or.inr h2
  · exfalso
    unfold is_safe_url at h
    simp only [h1, h2] at h
    split at h
    · exact Bool.false_ne_true h
    · simp at h

/-- C8 amended: the wrapper is replaced with exactly the value obtained by
form-decoding the `url` parameter (`+` to space, then percent-decoding)
and percent-decoding it a second time — when that value is an
`http`/`https` URL with a non-empty host differing from the wrapper; a
wrapper without a usable `url` parameter, or whose decoded value has any
other scheme (`javascript:` included), is left completely unmodified. -/
theorem C8_safelink_unwrap_decode_chain :
    (∀ w : String,
      qs_first (urlparse_lite w).query "url" = none → replace_safelink w = w) ∧
    (∀ w enc : String,
      qs_first (urlparse_lite w).query "url" = some enc →
      ((is_safe_url (unquote_str enc) = true → unquote_str enc ≠ w →
          replace_safelink w = unquote_str enc) ∧
        (¬(pyLower (urlparse_lite (unquote_str enc)).scheme = "http" ∨
            pyLower (urlparse_lite (unquote_str enc)).scheme = "https") →
          replace_safelink w = w))) := by
  constructor
  · intro w h
    unfold replace_safelink extract_url_from_safelink
    rw [h]
  · intro w enc h
    constructor
    · intro hsafe hne
      unfold replace_safelink extract_url_from_safelink
      rw [h]
      simp only [hsafe, if_true]
      rw [if_pos ⟨is_safe_url_ne_empty _ hsafe, hne⟩]
    · intro hscheme
      have hNotSafe : is_safe_url (unquote_str enc) = false := by
        cases hu : is_safe_url (unquote_str enc) with
        | false => rfl
        | true => exact absurd (is_safe_url_scheme _ hu) hscheme
      unfold replace_safelink extract_url_from_safelink
      rw [h]
      simp [hNotSafe]

/-- Concrete clean wrapper for the C8 witness. -/
def wrapC8w : String :=
  "https://eur05.safelinks.protection.outlook.com/?url=https%3A%2F%2Fexample.com%2Fpage&data=05"

/-- Witness for the amended C8: the clean wrapper round-trips to exactly
its decoded destination. -/
theorem C8_safelink_unwrap_decode_chain_witness :
    qs_first (urlparse_lite wrapC8w).query "url" = some "https://example.com/page" ∧
      replace_safelink wrapC8w = unquote_str "https://example.com/page" :=
  ⟨by decide,
    (C8_safelink_unwrap_decode_chain.2 wrapC8w "https://example.com/page"
      (by decide)).1 (by decide) (by decide)⟩

/-! ## Claim C9 -/

/-- Filename generator standing in for `_generate_safe_filename` in the C9
evaluation. -/
def genC9 : String → String → String → Nat → String → String :=
  fun _ _ _ _ _ => "msg_m9_img.png"

/-- Attachment for the C9 evaluation: content id `ABC`, decodable base64
payload. -/
def attC9 : AttachmentData :=
  { contentId := "ABC", contentBytes := "QUJD", contentType := "image/png",
    attName := some "logo.png" }

/-- HTML for the C9 evaluation: a `cid:ABC` reference in its
angle-bracketed form, outside a `src` attribute. -/
def htmlC9 : String := "<p>Se vedlegget cid:<ABC> her</p>"

/-- C9: the code misses the bare angle-bracketed CID form.  With HTML
containing `cid:<ABC>` and a decodable attachment whose content id is
`ABC`, `process_inline_images` performs no substitution: none of the nine
patterns of `_replace_cid_references` matches `cid:<ABC>` outside a
`src=`-attribute context, so the reference survives in the output (and the
processed flag stays false), while the same id in quoted `src` form is
rewritten. -/
theorem C9_bracketed_cid_left_behind :
    b64_decode_ok attC9.contentBytes = true ∧
      process_inline_images genC9 htmlC9 [attC9] "m9" = (htmlC9, none, false) ∧
      containsSub "cid:<ABC>".data
        (process_inline_images genC9 htmlC9 [attC9] "m9").1.data = true ∧
      (process_inline_images genC9 "<img src=\"cid:ABC\">" [attC9] "m9").1 =
        "<img src=\"/static/newsletters/msg_m9_img.png\">" ∧
      (process_inline_images genC9 "<img src=\"cid:ABC\">" [attC9] "m9").2.2 = true := by
  exact ⟨by decide, by decide, by decide, by decide, by decide⟩

/-! ## Claim C10 -/

/-- The claim-side walk propagates a failed state. -/
theorem spec_walk_foldl_none (w : GraphWorld) :
    ∀ segs : List String, segs.foldl (spec_walk_step w) none = none := by
  intro segs
  induction segs with
  | nil => rfl
  | cons s rest ih => simpa [spec_walk_step] using ih

/-- The claim-side walk coincides with the code's traversal loop. -/
theorem spec_walk_eq_walk_child_path (w : GraphWorld) :
    ∀ (segs : List String) (startId : String),
      spec_walk_segments w segs startId = walk_child_path w startId segs := by
  intro segs
  induction segs with
  | nil => intro s; rfl
  | cons p rest ih =>
    intro s
    unfold spec_walk_segments walk_child_path
    rw [List.foldl_cons]
    cases hc : w.childFolders s with
    | none => simp [spec_walk_step, hc, spec_walk_foldl_none]
    | some children =>
      cases hf : find_folder_ci children p with
      | none => simp [spec_walk_step, hc, hf, spec_walk_foldl_none]
      | some c =>
        simpa [spec_walk_step, hc, hf] using ih c.folderId

/-- C10: with no explicit folder id configured and a folder spec containing
a path separator, the code's resolution agrees with the claim's procedure:
first segment matched case-insensitively at root, fallback to the
well-known Inbox when it is missing there (in which case every segment is
walked), then a child-listing walk that fails to `NotFound` as soon as a
segment is missing or a listing fails. -/
theorem C10_path_resolution_matches_spec (w : GraphWorld) (folderSpec : String)
    (hexp : pyStrip w.explicitFolderId = "")
    (hslash : folderSpec.data.contains '/' = true) :
    resolve_folder_id w folderSpec = spec_resolve_path w folderSpec := by
  have hbp : resolve_folder_id w folderSpec = resolve_folder_by_path w folderSpec := by
    unfold resolve_folder_id
    rw [hexp, if_neg (by simp), if_pos hslash]
  rw [hbp]
  unfold resolve_folder_by_path spec_resolve_path
  cases hseg : path_segments folderSpec with
  | nil => cases hr : w.rootFolders <;> simp
  | cons s0 rest =>
    cases hr : w.rootFolders with
    | none => simp
    | some roots =>
      cases hf : find_folder_ci roots s0 with
      | some f => simp [hf, spec_walk_eq_walk_child_path]
      | none =>
        cases hi : find_folder_ci roots "inbox" with
        | some inbox => simp [hf, hi, spec_walk_eq_walk_child_path]
        | none => simp [hf, hi]

/-- Concrete world for the C10 witness: the spec scenario with root folder
Inbox (id 1) whose child Approved has id 7. -/
def worldC10 : GraphWorld :=
  { token := some "tok"
    explicitFolderId := ""
    newsletterFolder := "Inbox/Approved"
    rootFolders := some [⟨"Inbox", "1"⟩]
    childFolders := fun fid => if fid = "1" then some [⟨"Approved", "7"⟩] else some []
    folderMessages := fun _ => none
    messageDetail := fun _ => none
    messageAttachments := fun _ => none }

/-- Witness for C10: on the Inbox/Approved scenario the code and the
claim-side procedure agree, both yielding folder id 7. -/
theorem C10_path_resolution_matches_spec_witness :
    resolve_folder_id worldC10 "Inbox/Approved" =
      spec_resolve_path worldC10 "Inbox/Approved" ∧
    resolve_folder_id worldC10 "Inbox/Approved" = some "7" :=
  ⟨C10_path_resolution_matches_spec worldC10 "Inbox/Approved" (by decide) (by decide),
    by decide⟩
